import Mathlib

/-!
Verification of the ComparadorPlugins catalog-reconciliation engine.

The definitions below are a shallow embedding of the Python sources:
* `comparadores/comparacion_plugins.py` (similarity, compare_versions,
  the greedy matching pass of compare_plugins),
* `src/scraper.py` (WeadownScraper.scrape_plugins, PluginswpScraper._parse_page_content),
* `scrapers/scraper_plugins_weadown.py` (scrape_plugins_weadown),
* `src/scraper_coordinator.py` (ScraperCoordinator).

Python dicts are modelled as insertion-ordered association lists with unique
keys; machine-level concerns (network, logging, sleeping) are modelled by
abstract page environments `Nat → PageFetch`.
-/

namespace ComparadorPlugins

/-! ## Python dict as an insertion-ordered association list -/

/-- Python `dict` keyed by strings: an association list with unique keys;
`d[k] = v` replaces in place, a fresh key is appended at the end. -/
abbrev PyDict (α : Type) := List (String × α)

/-- Python dict store `d[k] = v`: replace the binding in place if `k` is
already bound, otherwise append `(k, v)` at the end. -/
def dictInsert {α : Type} : PyDict α → String → α → PyDict α
  | [], k, v => [(k, v)]
  | (k', v') :: rest, k, v =>
    if k' = k then (k, v) :: rest else (k', v') :: dictInsert rest k v

/-- Python dict read `d.get(k)` / `d[k]`. -/
def dictLookup {α : Type} : PyDict α → String → Option α
  | [], _ => none
  | (k', v') :: rest, k => if k' = k then some v' else dictLookup rest k

theorem dictLookup_dictInsert_self {α : Type} (d : PyDict α) (k : String) (v : α) :
    dictLookup (dictInsert d k v) k = some v := by
  induction d with
  | nil => simp [dictInsert, dictLookup]
  | cons hd tl ih =>
    obtain ⟨k', v'⟩ := hd
    by_cases h : k' = k
    · simp [dictInsert, dictLookup, h]
    · simp [dictInsert, dictLookup, h, ih]

theorem dictLookup_dictInsert_ne {α : Type} (d : PyDict α) (k k₀ : String) (v : α)
    (h : k ≠ k₀) : dictLookup (dictInsert d k v) k₀ = dictLookup d k₀ := by
  induction d with
  | nil => simp [dictInsert, dictLookup, h]
  | cons hd tl ih =>
    obtain ⟨k', v'⟩ := hd
    by_cases hk : k' = k
    · subst hk
      simp [dictInsert, dictLookup, h]
    · simp [dictInsert, dictLookup, hk, ih]

/-! ## Version comparison (`comparadores/comparacion_plugins.py`, lines 17-45) -/

/-- Split a string on `'.'`, Python `v.split('.')`: `""` yields `[""]`,
adjacent dots yield empty components. -/
def splitDot (s : String) : List String :=
  (s.toList.foldr
    (fun c (acc : List (List Char)) =>
      match acc with
      | [] => if c = '.' then [[], []] else [[c]]
      | g :: gs => if c = '.' then [] :: g :: gs else (c :: g) :: gs)
    [[]]).map (fun cs => String.mk cs)

/-- ASCII whitespace stripped by Python `int(str)`. -/
def isPySpace (c : Char) : Bool :=
  c = ' ' ∨ c = '\t' ∨ c = '\n' ∨ c = '\r'

/-- Value of a nonempty all-digit character run. -/
def digitRunVal : List Char → Option Nat
  | [] => none
  | cs =>
    if cs.all Char.isDigit then
      some (cs.foldl (fun n c => n * 10 + (c.toNat - 48)) 0)
    else none

/-- Python `int(s)` on a string: strip surrounding whitespace, optional sign,
then a nonempty digit run; anything else raises `ValueError` (`none` here).
Digit-group underscores are not modelled (never produced by the scrapers). -/
def pyIntOpt (s : String) : Option Int :=
  let cs := ((s.toList.dropWhile isPySpace).reverse.dropWhile isPySpace).reverse
  match cs with
  | '+' :: rest => (digitRunVal rest).map (fun n => (n : Int))
  | '-' :: rest => (digitRunVal rest).map (fun n => -(n : Int))
  | rest => (digitRunVal rest).map (fun n => (n : Int))

/-- The comprehension `[int(x) for x in v.split('.')]`: `none` models the `ValueError` that the
source's `try` block catches. -/
def parseParts (v : String) : Option (List Int) :=
  (splitDot v).mapM pyIntOpt

/-- The padding `parts.extend([0] * (max_len - len(parts)))`. -/
def padZeros (l : List Int) (n : Nat) : List Int :=
  l ++ List.replicate (n - l.length) 0

/-- Python `<` on two lists of ints: lexicographic, shorter prefix is smaller. -/
def pyListLt : List Int → List Int → Bool
  | [], [] => false
  | [], _ :: _ => true
  | _ :: _, [] => false
  | a :: as, b :: bs => if a < b then true else if b < a then false else pyListLt as bs

/-- Function `compare_versions(v1, v2)` from `comparadores/comparacion_plugins.py`.
Python `parts1 > parts2` on int lists is `pyListLt parts2 parts1`. -/
def compare_versions (v1 v2 : String) : String :=
  if v1 = "" ∨ v2 = "" then "DESCONOCIDO"
  else
    match parseParts v1, parseParts v2 with
    | some parts1, some parts2 =>
      let maxLen := max parts1.length parts2.length
      let l1 := padZeros parts1 maxLen
      let l2 := padZeros parts2 maxLen
      if pyListLt l2 l1 then "ACTUALIZADO"
      else if pyListLt l1 l2 then "DESACTUALIZADO"
      else "IGUAL"
    | _, _ => if v1 = v2 then "IGUAL" else "DESCONOCIDO"

/-- Function `similarity(a, b)` from `comparadores/comparacion_plugins.py`, lines 11-15,
parameterised by the `SequenceMatcher(None, ·, ·).ratio()` score function
(difflib is external; its score always lies in `[0, 1]`). -/
def similarity (score : String → String → ℚ) (a b : String) : ℚ :=
  if a = "" ∨ b = "" then 0.0 else score a.toLower b.toLower

/-! ## The greedy matching pass (`comparadores/comparacion_plugins.py`, lines 87-151) -/

/-- One row of the `plugins_wp.csv` / `plugins_weadown.csv` inputs
(columns `nombre, version, url`; `titulo_original` is unused by the pass). -/
structure PluginRow where
  nombre : String
  version : String
  url : String
deriving DecidableEq, Repr

/-- One record appended to `exactas` / `similares` / `desactualizados`.
The source stores `similitud` as the formatted string `f"{s:.2%}"`; the raw
score is kept here, the formatting being injective on scores. -/
structure MatchRow where
  nombre_wp : String
  nombre_weadown : String
  version_wp : String
  version_weadown : String
  url_wp : String
  url_weadown : String
  similitud : ℚ
  estado : String
deriving DecidableEq, Repr

/-- One record appended to `faltantes` (lines 146-151).  Note the record type
carries no candidate-side (`_wp`) version or url fields at all. -/
structure FaltanteRow where
  nombre_weadown : String
  version_weadown : String
  url_weadown : String
  observacion : String
deriving DecidableEq, Repr

/-- The `(best_similarity, best_index, best_match)` triple of lines 104-106;
`(0.0, -1, None)` is modelled as `bestSim = 0` with `best = none`. -/
structure BestAcc where
  bestSim : ℚ
  best : Option (Nat × PluginRow)
deriving DecidableEq, Repr

/-- One iteration of the inner search loop (lines 109-119): consumed
candidates are skipped, and a strictly greater score replaces the best. -/
def bestStep (sim : String → String → ℚ) (wdNombre : String) (matched : List Nat)
    (acc : BestAcc) (iwp : Nat × PluginRow) : BestAcc :=
  if iwp.1 ∈ matched then acc
  else
    let s := sim wdNombre iwp.2.nombre
    if acc.bestSim < s then ⟨s, some iwp⟩ else acc

/-- The inner search loop over the enumerated candidate catalog. -/
def bestSearch (sim : String → String → ℚ) (wdNombre : String)
    (iwps : List (Nat × PluginRow)) (matched : List Nat) : BestAcc :=
  iwps.foldl (bestStep sim wdNombre matched) ⟨0.0, none⟩

/-- Observation of one reference item's turn, recorded for verification only:
the reference row, its best score and the best candidate found (if any). -/
structure StepInfo where
  wd : PluginRow
  bestSim : ℚ
  best : Option (Nat × PluginRow)
deriving DecidableEq, Repr

/-- The mutable state of the matching pass: the four output lists, the
`matched_wp_indices` set, plus the ghost `steps` log (verification only). -/
structure PassState where
  exactas : List MatchRow
  similares : List MatchRow
  desactualizados : List MatchRow
  faltantes : List FaltanteRow
  matched : List Nat
  steps : List StepInfo
deriving DecidableEq, Repr

def initState : PassState := ⟨[], [], [], [], [], []⟩

/-- The record of lines 125-134. -/
def mkMatchRow (wp wd : PluginRow) (s : ℚ) : MatchRow :=
  ⟨wp.nombre, wd.nombre, wp.version, wd.version, wp.url, wd.url, s,
    compare_versions wp.version wd.version⟩

/-- The record of lines 146-151. -/
def mkFaltante (wd : PluginRow) : FaltanteRow :=
  ⟨wd.nombre, wd.version, wd.url, "No encontrado en WP"⟩

/-- The classification of lines 122-151, with the search result
destructured: when `best_similarity >= 0.80` the (necessarily found, see
`bestSearch_pos_some`) best candidate is consumed and the record filed under
`exactas` (score `== 1.0`) or `similares`, plus `desactualizados` when its
`estado` says so; otherwise a `faltantes` record is filed.  A best score
`>= 0.80` with no candidate cannot arise from `bestSearch` (the source would
raise on `best_match[...]` there); it is modelled as a step-log-only update. -/
def passStepCore (st : PassState) (wd : PluginRow) (bestSim : ℚ) :
    Option (Nat × PluginRow) → PassState
  | some (i, wp) =>
    if (0.80 : ℚ) ≤ bestSim then
      let r := mkMatchRow wp wd bestSim
      { st with
        matched := st.matched ++ [i],
        exactas := st.exactas ++ (if bestSim = 1 then [r] else []),
        similares := st.similares ++ (if bestSim = 1 then [] else [r]),
        desactualizados :=
          st.desactualizados ++ (if r.estado = "DESACTUALIZADO" then [r] else []),
        steps := st.steps ++ [⟨wd, bestSim, some (i, wp)⟩] }
    else
      { st with
        faltantes := st.faltantes ++ [mkFaltante wd],
        steps := st.steps ++ [⟨wd, bestSim, some (i, wp)⟩] }
  | none =>
    if (0.80 : ℚ) ≤ bestSim then
      { st with steps := st.steps ++ [⟨wd, bestSim, none⟩] }
    else
      { st with
        faltantes := st.faltantes ++ [mkFaltante wd],
        steps := st.steps ++ [⟨wd, bestSim, none⟩] }

/-- One iteration of the outer loop (lines 102-151): search the not-yet-
consumed candidates, then classify. -/
def passStep (sim : String → String → ℚ) (iwps : List (Nat × PluginRow))
    (st : PassState) (wd : PluginRow) : PassState :=
  let b := bestSearch sim wd.nombre iwps st.matched
  passStepCore st wd b.bestSim b.best

/-- The whole matching pass over the reference catalog `plugins_weadown`,
candidates `enumerate(plugins_wp)`, parameterised by the difflib score. -/
def runPass (score : String → String → ℚ) (wps wds : List PluginRow) : PassState :=
  wds.foldl (passStep (similarity score) wps.enum) initState

/-- Function `compare_plugins` (lines 73-151): the guard of lines 87-89 returns early
(no output files are written) when either loaded catalog is empty. -/
def compare_plugins (score : String → String → ℚ) (wps wds : List PluginRow) :
    Option PassState :=
  if wps = [] ∨ wds = [] then none else some (runPass score wps wds)

/-! ### Per-step output contributions (verification-only observations) -/

/-- Code-mirroring condition for an `exactas` contribution. -/
def exactOfCode (s : StepInfo) : Option MatchRow :=
  match s.best with
  | some (_, wp) =>
    if (0.80 : ℚ) ≤ s.bestSim ∧ s.bestSim = 1 then some (mkMatchRow wp s.wd s.bestSim)
    else none
  | none => none

/-- Code-mirroring condition for a `similares` contribution. -/
def similarOfCode (s : StepInfo) : Option MatchRow :=
  match s.best with
  | some (_, wp) =>
    if (0.80 : ℚ) ≤ s.bestSim ∧ ¬ s.bestSim = 1 then some (mkMatchRow wp s.wd s.bestSim)
    else none
  | none => none

/-- Claim-facing condition: best score exactly `1.0` yields an EXACT record. -/
def exactOf (s : StepInfo) : Option MatchRow :=
  match s.best with
  | some (_, wp) => if s.bestSim = 1 then some (mkMatchRow wp s.wd s.bestSim) else none
  | none => none

/-- Claim-facing condition: best score in `[0.80, 1.0)` yields a SIMILAR record. -/
def similarOf (s : StepInfo) : Option MatchRow :=
  match s.best with
  | some (_, wp) =>
    if (0.80 : ℚ) ≤ s.bestSim ∧ s.bestSim < 1 then some (mkMatchRow wp s.wd s.bestSim)
    else none
  | none => none

/-- Best score below `0.80` yields a MISSING (`faltantes`) record. -/
def missingOf (s : StepInfo) : Option FaltanteRow :=
  if s.bestSim < (0.80 : ℚ) then some (mkFaltante s.wd) else none

/-- The candidate index consumed by a step (it enters `matched_wp_indices`). -/
def consumedOf (s : StepInfo) : Option Nat :=
  if (0.80 : ℚ) ≤ s.bestSim then s.best.map Prod.fst else none

/-- Invariant of the matching pass relating the output lists and the consumed
index set to the step log. -/
def PassInv (st : PassState) : Prop :=
  st.exactas = st.steps.filterMap exactOfCode
  ∧ st.similares = st.steps.filterMap similarOfCode
  ∧ st.faltantes = st.steps.filterMap missingOf
  ∧ st.matched = st.steps.filterMap consumedOf
  ∧ st.matched.Nodup

/-! ## Crawlers -/

/-- Whether `p` is an initial segment of `l`; `listIsPrefixOf p l` decides whether `p` is an initial segment of `l`. -/
def listIsPrefixOf : List Char → List Char → Bool
  | [], _ => true
  | _ :: _, [] => false
  | a :: as, b :: bs => if a = b then listIsPrefixOf as bs else false

/-- Python `s.startswith(p)`. -/
def strStartsWith (s p : String) : Bool := listIsPrefixOf p.toList s.toList

/-- The resolution `post_url if post_url.startswith('http') else BASE_URL + post_url`. -/
def resolveUrl (base u : String) : String :=
  if strStartsWith u "http" then u else base ++ u

/-- A listing container as the parse loop sees it: the text of the first
`h2/h3/h4` title element (`none` when no title element is found, which skips
the item) and the resolved `href` of the link element (`none` when absent). -/
structure WArticle where
  title : Option String
  href : Option String
deriving DecidableEq, Repr

/-- Outcome of one page fetch: parsed containers on success, a "not found"
status, or any other transport error (timeout, DNS, non-2xx) — in
`WeadownScraper` a not-found status also raises through `raise_for_status`,
so both non-`ok` outcomes take the `requests.RequestException` branch. -/
inductive PageFetch
  | ok (articles : List WArticle)
  | notFound
  | transportError
deriving DecidableEq, Repr

/-! ### `WeadownScraper.scrape_plugins` (`src/scraper.py`, lines 35-137) -/

/-- One catalog record (`src/scraper.py`, lines 114-118). -/
structure PluginRec where
  version : Option String
  download_url : String
  raw_title : String
deriving DecidableEq, Repr

namespace WeadownScraper

/-- Constant `BASE_URL` of `WeadownScraper`. -/
def BASE_URL : String := "https://weadown.com"

/-- Constant `MAX_PAGES` of `WeadownScraper`. -/
def MAX_PAGES : Nat := 10

/-- The insertion of lines 113-119: a record is stored (and
`page_had_results` set) only when both a cleaned name and a post url exist. -/
def insertWd (acc : PyDict PluginRec × Bool) (version : Option String)
    (title : String) : Option String → Option String → PyDict PluginRec × Bool
  | some name, some u => (dictInsert acc.1 name ⟨version, u, title⟩, true)
  | some _, none => acc
  | none, _ => acc

/-- The per-article body (lines 84-123), carrying the `(plugins,
page_had_results)` pair.  `clean` and `extractV` are the `_clean_plugin_name`
and `_extract_version` text functions (`None` = `none`). -/
def parseArticle (clean extractV : String → Option String)
    (acc : PyDict PluginRec × Bool) : WArticle → PyDict PluginRec × Bool
  | ⟨none, _⟩ => acc
  | ⟨some title, href⟩ =>
    insertWd acc (extractV title) title (clean title) (href.map (resolveUrl BASE_URL))

/-- The pagination loop (lines 46-131) over the remaining page numbers; the
second component is the "an exception was raised out of the loop" flag
(only a page-1 `requests.RequestException` is re-raised, line 61). -/
def scrapeLoop (clean extractV : String → Option String) (env : Nat → PageFetch) :
    List Nat → PyDict PluginRec → PyDict PluginRec × Bool
  | [], plugins => (plugins, false)
  | p :: rest, plugins =>
    match env p with
    | .ok articles =>
      if articles = [] then (plugins, false)
      else
        let res := articles.foldl (parseArticle clean extractV) (plugins, false)
        if res.2 then scrapeLoop clean extractV env rest res.1 else (res.1, false)
    | .notFound => if p = 1 then (plugins, true) else (plugins, false)
    | .transportError => if p = 1 then (plugins, true) else (plugins, false)

/-- Method `scrape_plugins`: the outer `try/except Exception` of lines 44 and
133-134 catches even the re-raised page-1 error and only logs it, so the
function always returns the accumulated dict and never raises. -/
def scrape_plugins (clean extractV : String → Option String)
    (env : Nat → PageFetch) : PyDict PluginRec :=
  (scrapeLoop clean extractV env (List.range' 1 MAX_PAGES) []).1

end WeadownScraper

/-! ### `PluginswpScraper._parse_page_content` (`src/scraper.py`, lines 226-282) -/

/-- One record of the pluginswp catalog (lines 272-276). -/
structure PwRec where
  version : Option String
  post_url : Option String
  raw_title : String
deriving DecidableEq, Repr

namespace PluginswpScraper

/-- Constant `BASE_URL` of `PluginswpScraper`. -/
def BASE_URL : String := "http://pluginswp.online"

/-- The insertion of lines 269-276 ("Only add if not already present"): a
name already bound in the dict is left untouched. -/
def insertPw (plugins : PyDict PwRec) (rec : PwRec) : Option String → PyDict PwRec
  | some name =>
    if (dictLookup plugins name).isSome then plugins else plugins ++ [(name, rec)]
  | none => plugins

/-- The per-article body (lines 240-280): a name alone suffices here (no url
required). -/
def parseArticle (clean extractV : String → Option String)
    (plugins : PyDict PwRec) : WArticle → PyDict PwRec
  | ⟨none, _⟩ => plugins
  | ⟨some title, href⟩ =>
    insertPw plugins ⟨extractV title, href.map (resolveUrl BASE_URL), title⟩ (clean title)

/-- Method `_parse_page_content(soup, plugins)` over the discovered containers. -/
def parse_page_content (clean extractV : String → Option String)
    (articles : List WArticle) (plugins : PyDict PwRec) : PyDict PwRec :=
  articles.foldl (parseArticle clean extractV) plugins

end PluginswpScraper

/-! ### `scrape_plugins_weadown` (`scrapers/scraper_plugins_weadown.py`, lines 51-147) -/

/-- One appended row (lines 125-130); this scraper accumulates a plain list,
not a dict.  `extract_version`/`clean_plugin_name` here return `""` for "no
result", hence plain `String` fields. -/
structure CsvRow where
  nombre : String
  version : String
  url : String
  titulo_original : String
deriving DecidableEq, Repr

namespace ScrapersWeadown

/-- Constant `base_url` of `scrape_plugins_weadown`. -/
def base_url : String := "https://weadown.com"

/-- The per-article body (lines 100-134): the url defaults to `""` when no
link is found, and a row is appended whenever the cleaned name is nonempty —
even when an identical name was already appended. -/
def parseArticle (cleanS extractS : String → String)
    (rows : List CsvRow) : WArticle → List CsvRow
  | ⟨none, _⟩ => rows
  | ⟨some title, href⟩ =>
    let url := match href with
      | some u => resolveUrl base_url u
      | none => ""
    if cleanS title = "" then rows
    else rows ++ [⟨cleanS title, extractS title, url, title⟩]

/-- The pagination loop (lines 67-145): a 404 status, an empty container
list, or any request/other exception breaks out; there is no check on whether
a page contributed new rows. -/
def scrapeLoop (cleanS extractS : String → String) (env : Nat → PageFetch) :
    List Nat → List CsvRow → List CsvRow
  | [], rows => rows
  | p :: rest, rows =>
    match env p with
    | .notFound => rows
    | .transportError => rows
    | .ok articles =>
      if articles = [] then rows
      else scrapeLoop cleanS extractS env rest
        (articles.foldl (parseArticle cleanS extractS) rows)

/-- Function `scrape_plugins_weadown(max_pages)`. -/
def scrape_plugins_weadown (cleanS extractS : String → String)
    (env : Nat → PageFetch) (max_pages : Nat) : List CsvRow :=
  scrapeLoop cleanS extractS env (List.range' 1 max_pages) []

end ScrapersWeadown

/-! ## Task coordinator (`src/scraper_coordinator.py`) -/

/-- Enum `TaskState` (lines 13-18); the spec names `FINISHED` "SUCCEEDED". -/
inductive TaskState
  | pending
  | active
  | finished
  | failed
deriving DecidableEq, Repr

/-- The scraper classes of `src/scraper.py` that callers (the repo's tests)
register with the coordinator. -/
inductive ScraperClass
  | weadownCls
  | pluginswpCls
deriving DecidableEq, Repr

/-- Whether the class's `scrape_plugins` accepts a `max_pages` keyword:
both are declared `def scrape_plugins(self):` (`src/scraper.py`, lines 35 and
185), so neither does, and `scrape_plugins(max_pages=...)` raises `TypeError`. -/
def acceptsMaxPagesKeyword : ScraperClass → Bool
  | .weadownCls => false
  | .pluginswpCls => false

/-- The `TypeError` message for the rejected keyword argument. -/
def typeErrorMaxPages : String :=
  "scrape_plugins() got an unexpected keyword argument: max_pages"

/-- Dataclass `ScraperTask` (lines 21-31). -/
structure ScraperTask where
  identifier : String
  scraper_type : ScraperClass
  state : TaskState
  result_data : PyDict PluginRec
  item_count : Nat
  completed_at : Option String
  error_info : Option String
  page_limit : Nat
deriving DecidableEq, Repr

/-- The freshly constructed descriptor of lines 44-48 (dataclass defaults:
`PENDING`, empty result, zero items, no timestamp, no error). -/
def mkScraperTask (taskId : String) (cls : ScraperClass) (pages : Nat) : ScraperTask :=
  ⟨taskId, cls, .pending, [], 0, none, none, pages⟩

/-- Method `register_task` (lines 42-50): builds a fresh descriptor and stores it,
with no check whatsoever on any existing descriptor's state. -/
def register_task (registry : PyDict ScraperTask) (taskId : String)
    (cls : ScraperClass) (pages : Nat) : PyDict ScraperTask :=
  dictInsert registry taskId (mkScraperTask taskId cls pages)

/-- Method `_perform_scrape` (lines 67-80): invoke
`scraper_instance.scrape_plugins(max_pages=task.page_limit)` and on success
record the catalog, count and timestamp; on any exception record `FAILED`
with the message.  `crawl` abstracts what a successful call would return and
`now` the `datetime.now().isoformat()` clock reading. -/
def perform_scrape (task : ScraperTask)
    (crawl : ScraperClass → Nat → PyDict PluginRec) (now : String) : ScraperTask :=
  if acceptsMaxPagesKeyword task.scraper_type then
    let collected := crawl task.scraper_type task.page_limit
    { task with
      result_data := collected, item_count := collected.length,
      state := .finished, completed_at := some now }
  else
    { task with state := .failed, error_info := some typeErrorMaxPages }

/-- Method `execute_task` (lines 52-65): unknown id raises `ValueError`; an ACTIVE
task returns `False` untouched; otherwise the task turns ACTIVE and the crawl
is submitted to the pool. -/
def execute_task (registry : PyDict ScraperTask) (taskId : String) :
    Except String (Bool × PyDict ScraperTask) :=
  match dictLookup registry taskId with
  | none => .error ("Unknown task: " ++ taskId)
  | some t =>
    if t.state = .active then .ok (false, registry)
    else .ok (true, dictInsert registry taskId { t with state := .active })

/-- Composition of `execute_task` followed by the submitted `_perform_scrape` running to
completion on a worker (the worker mutates the same descriptor in place). -/
def run_to_completion (registry : PyDict ScraperTask) (taskId : String)
    (crawl : ScraperClass → Nat → PyDict PluginRec) (now : String) :
    Except String (PyDict ScraperTask) :=
  match execute_task registry taskId with
  | .error e => .error e
  | .ok (false, reg) => .ok reg
  | .ok (true, reg) =>
    match dictLookup reg taskId with
    | some t => .ok (dictInsert reg taskId (perform_scrape t crawl now))
    | none => .ok reg

/-! ## Concrete inputs used by counterexamples and witnesses -/

/-- A text function returning no result for any input. -/
def noneText : String → Option String := fun _ => none

/-- An environment in which every page fetch fails with a transport error. -/
def envAllFail : Nat → PageFetch := fun _ => PageFetch.transportError

/-- The identity name-cleaning function (titles are already clean names). -/
def idText : String → String := fun t => t

/-- The version extractor finding no version (returns `""`). -/
def emptyText : String → String := fun _ => ""

/-- A listing container titled `"a"`. -/
def artA : WArticle := ⟨some "a", some "http://x/a"⟩

/-- A listing container titled `"b"`. -/
def artB : WArticle := ⟨some "b", some "http://x/b"⟩

/-- Pages 1 and 2 carry the same single container (page 2 yields zero new
records), page 3 carries a fresh one, page 4 onwards is not found. -/
def envDupPage : Nat → PageFetch := fun p =>
  if p = 1 then .ok [artA]
  else if p = 2 then .ok [artA]
  else if p = 3 then .ok [artB]
  else .notFound

/-- A name cleaner sending every title to the same name `"n"`. -/
def constNameClean : String → Option String := fun _ => some "n"

/-- The string-valued variant of `constNameClean` (the CSV scrapers use
`""`-valued text helpers). -/
def constNameCleanS : String → String := fun _ => "n"

/-- A version extractor echoing the whole title (keeps records tellable apart). -/
def titleEcho : String → Option String := fun t => some t

/-- A listing container titled `"t1"`. -/
def artT1 : WArticle := ⟨some "t1", some "http://u1"⟩

/-- A listing container titled `"t2"`. -/
def artT2 : WArticle := ⟨some "t2", some "http://u2"⟩

/-- A catalog record for the coordinator counterexample. -/
def recExample : PluginRec := ⟨some "1.0", "u", "x 1.0"⟩

/-- A task descriptor currently ACTIVE, holding one result record and a page
limit of 3. -/
def taskActiveExample : ScraperTask :=
  ⟨"t", .weadownCls, .active, [("x", recExample)], 1, none, none, 3⟩

/-- The constant difflib score 1. -/
def scoreOne : String → String → ℚ := fun _ _ => 1

/-- The constant difflib score 0. -/
def scoreZero : String → String → ℚ := fun _ _ => 0

/-- A candidate (`plugins_wp.csv`) row. -/
def rowWp : PluginRow := ⟨"akismet", "4.0", "uwp"⟩

/-- A reference (`plugins_weadown.csv`) row. -/
def rowWd : PluginRow := ⟨"akismet", "4.1", "uwd"⟩

/-! ## Helper lemmas: Python list comparison is lexicographic order -/

theorem pyListLt_iff_lex : ∀ l1 l2 : List Int,
    pyListLt l1 l2 = true ↔ List.Lex (· < ·) l1 l2 := by
  intro l1
  induction l1 with
  | nil =>
    intro l2
    cases l2 with
    | nil => simp [pyListLt]
    | cons b bs => simp [pyListLt]; exact List.Lex.nil
  | cons a as ih =>
    intro l2
    cases l2 with
    | nil =>
      simp [pyListLt]
    | cons b bs =>
      constructor
      · intro h
        by_cases hab : a < b
        · exact List.Lex.rel hab
        · by_cases hba : b < a
          · simp [pyListLt, hab, hba] at h
          · have hEq : a = b := le_antisymm (not_lt.mp hba) (not_lt.mp hab)
            subst hEq
            simp [pyListLt, hab, hba] at h
            exact List.Lex.cons ((ih bs).mp h)
      · intro h
        cases h with
        | rel hr => simp [pyListLt, hr]
        | cons htl =>
          simp [pyListLt, lt_irrefl]
          exact (ih bs).mpr htl

theorem pyListLt_irrefl : ∀ l : List Int, pyListLt l l = false := by
  intro l
  induction l with
  | nil => rfl
  | cons a as ih => simp [pyListLt, lt_irrefl, ih]

theorem pyListLt_eq_of_not_lt : ∀ l1 l2 : List Int, l1.length = l2.length →
    pyListLt l1 l2 = false → pyListLt l2 l1 = false → l1 = l2 := by
  intro l1
  induction l1 with
  | nil =>
    intro l2 hlen _ _
    cases l2 with
    | nil => rfl
    | cons b bs => simp at hlen
  | cons a as ih =>
    intro l2 hlen h12 h21
    cases l2 with
    | nil => simp at hlen
    | cons b bs =>
      by_cases hab : a < b
      · simp [pyListLt, hab] at h12
      · by_cases hba : b < a
        · simp [pyListLt, hba] at h21
        · have hEq : a = b := le_antisymm (not_lt.mp hba) (not_lt.mp hab)
          subst hEq
          simp [pyListLt, lt_irrefl] at h12 h21
          simp at hlen
          simp [ih bs hlen h12 h21]

theorem padZeros_length (l : List Int) (n : Nat) (h : l.length ≤ n) :
    (padZeros l n).length = n := by
  simp [padZeros]
  omega

theorem parseParts_ne_empty {v : String} {p : List Int}
    (h : parseParts v = some p) : v ≠ "" := by
  intro hv
  subst hv
  rw [show parseParts "" = none from by decide] at h
  exact Option.noConfusion h

theorem pyListLt_asymm : ∀ l1 l2 : List Int,
    pyListLt l1 l2 = true → pyListLt l2 l1 = false := by
  intro l1
  induction l1 with
  | nil =>
    intro l2 _
    cases l2 with
    | nil => rfl
    | cons b bs => rfl
  | cons a as ih =>
    intro l2 h
    cases l2 with
    | nil => simp [pyListLt] at h
    | cons b bs =>
      by_cases hab : a < b
      · simp [pyListLt, hab, not_lt.mpr (le_of_lt hab), lt_irrefl]
      · by_cases hba : b < a
        · simp [pyListLt, hab, hba] at h
        · have hEq : a = b := le_antisymm (not_lt.mp hba) (not_lt.mp hab)
          subst hEq
          simp [pyListLt, lt_irrefl] at h ⊢
          exact ih bs h

theorem padZeros_self (l : List Int) : padZeros l l.length = l := by
  simp [padZeros]

/-- Unfolding of `compare_versions` when both versions parse (the `try`
block succeeds). -/
theorem compare_versions_parsed (v1 v2 : String) (parts1 parts2 : List Int)
    (h1 : parseParts v1 = some parts1) (h2 : parseParts v2 = some parts2) :
    compare_versions v1 v2 =
      (if pyListLt (padZeros parts2 (max parts1.length parts2.length))
          (padZeros parts1 (max parts1.length parts2.length)) then "ACTUALIZADO"
       else if pyListLt (padZeros parts1 (max parts1.length parts2.length))
          (padZeros parts2 (max parts1.length parts2.length)) then "DESACTUALIZADO"
       else "IGUAL") := by
  have hne1 := parseParts_ne_empty h1
  have hne2 := parseParts_ne_empty h2
  unfold compare_versions
  rw [if_neg (by simp [hne1, hne2])]
  rw [h1, h2]

/-- Unfolding of `compare_versions` when a component fails to parse (the
`except` fallback of lines 41-45). -/
theorem compare_versions_fallback (v1 v2 : String)
    (hne : ¬(v1 = "" ∨ v2 = "")) (h : parseParts v1 = none ∨ parseParts v2 = none) :
    compare_versions v1 v2 = (if v1 = v2 then "IGUAL" else "DESCONOCIDO") := by
  unfold compare_versions
  rw [if_neg hne]
  rcases h with h | h
  · rw [h]
  · rw [h]
    rcases hp1 : parseParts v1 with _ | p1 <;> rfl

/-- Claim C4: for version strings whose dot-separated components all parse as
integers, `compare_versions` zero-pads the shorter component vector with
trailing zeros and compares the padded vectors numerically (lexicographic
order on integer lists); in particular `compare_versions "1.2" "1.2.0" =
IGUAL` and `compare_versions "1.10" "1.9" = ACTUALIZADO` (UPDATED). -/
theorem claim_C4_version_numeric_compare :
    (∀ v1 v2 parts1 parts2, parseParts v1 = some parts1 → parseParts v2 = some parts2 →
      ((compare_versions v1 v2 = "ACTUALIZADO" ↔
          List.Lex (· < ·) (padZeros parts2 (max parts1.length parts2.length))
            (padZeros parts1 (max parts1.length parts2.length)))
       ∧ (compare_versions v1 v2 = "DESACTUALIZADO" ↔
          List.Lex (· < ·) (padZeros parts1 (max parts1.length parts2.length))
            (padZeros parts2 (max parts1.length parts2.length)))
       ∧ (compare_versions v1 v2 = "IGUAL" ↔
          padZeros parts1 (max parts1.length parts2.length)
            = padZeros parts2 (max parts1.length parts2.length))))
    ∧ compare_versions "1.2" "1.2.0" = "IGUAL"
    ∧ compare_versions "1.10" "1.9" = "ACTUALIZADO" := by
  refine ⟨?_, by decide, by decide⟩
  intro v1 v2 parts1 parts2 h1 h2
  rw [compare_versions_parsed v1 v2 parts1 parts2 h1 h2]
  have hlen : (padZeros parts1 (max parts1.length parts2.length)).length
      = (padZeros parts2 (max parts1.length parts2.length)).length := by
    rw [padZeros_length _ _ (Nat.le_max_left _ _),
        padZeros_length _ _ (Nat.le_max_right _ _)]
  set L1 := padZeros parts1 (max parts1.length parts2.length)
  set L2 := padZeros parts2 (max parts1.length parts2.length)
  by_cases h21 : pyListLt L2 L1 = true
  · have h12 : pyListLt L1 L2 = false := pyListLt_asymm _ _ h21
    have hne : L1 ≠ L2 := by
      intro hEq
      rw [hEq, pyListLt_irrefl] at h21
      exact Bool.noConfusion h21
    simp only [h21, if_true]
    refine ⟨by simp [← pyListLt_iff_lex, h21], ?_, ?_⟩
    · constructor
      · intro habs; exact absurd habs (by decide)
      · intro hlex
        rw [← pyListLt_iff_lex, h12] at hlex
        exact Bool.noConfusion hlex
    · constructor
      · intro habs; exact absurd habs (by decide)
      · intro hEq; exact absurd hEq hne
  · by_cases h12 : pyListLt L1 L2 = true
    · have hne : L1 ≠ L2 := by
        intro hEq
        rw [hEq, pyListLt_irrefl] at h12
        exact Bool.noConfusion h12
      simp only [h21, h12, if_false, if_true, Bool.false_eq_true]
      refine ⟨?_, by simp [← pyListLt_iff_lex, h12], ?_⟩
      · constructor
        · intro habs; exact absurd habs (by decide)
        · intro hlex
          rw [← pyListLt_iff_lex] at hlex
          exact (h21 hlex).elim
      · constructor
        · intro habs; exact absurd habs (by decide)
        · intro hEq; exact absurd hEq hne
    · have hEq : L1 = L2 :=
        pyListLt_eq_of_not_lt L1 L2 hlen
          (Bool.not_eq_true _ ▸ Bool.of_not_eq_true h12)
          (Bool.not_eq_true _ ▸ Bool.of_not_eq_true h21)
      simp only [h21, h12, if_false, Bool.false_eq_true]
      refine ⟨?_, ?_, by simp [hEq]⟩
      · constructor
        · intro habs; exact absurd habs (by decide)
        · intro hlex
          rw [← pyListLt_iff_lex] at hlex
          exact (h21 hlex).elim
      · constructor
        · intro habs; exact absurd habs (by decide)
        · intro hlex
          rw [← pyListLt_iff_lex] at hlex
          exact (h12 hlex).elim

/-- Witness for claim C4 at `v1 = "1.10"`, `v2 = "1.9"`. -/
theorem claim_C4_witness :
    (parseParts "1.10" = some [1, 10] ∧ parseParts "1.9" = some [1, 9])
    ∧ (compare_versions "1.10" "1.9" = "ACTUALIZADO" ↔
        List.Lex (· < ·) (padZeros [1, 9] 2) (padZeros [1, 10] 2)) := by
  refine ⟨⟨by decide, by decide⟩, ?_⟩
  exact (claim_C4_version_numeric_compare.1 "1.10" "1.9" [1, 10] [1, 9]
    (by decide) (by decide)).1

/-- Claim C8 counterexample: `compare_versions` is not reflexive on the empty
version string — `compare_versions("", "")` returns `DESCONOCIDO` (UNKNOWN)
through the falsy-argument guard of line 22, not `IGUAL` (SAME). -/
theorem claim_C8_counterexample :
    compare_versions "" "" = "DESCONOCIDO" ∧ ¬ compare_versions "" "" = "IGUAL" := by
  decide

/-- Claim C8 (amended): `compare_versions` is antisymmetric on all version
strings (`UPDATED` one way iff `OUTDATED` the other way), and reflexive on
all NONEMPTY version strings; on `""` it returns `DESCONOCIDO`. -/
theorem claim_C8_amended :
    (∀ a b, compare_versions a b = "ACTUALIZADO" ↔ compare_versions b a = "DESACTUALIZADO")
    ∧ (∀ a, a ≠ "" → compare_versions a a = "IGUAL") := by
  constructor
  · intro a b
    by_cases hg : a = "" ∨ b = ""
    · have e1 : compare_versions a b = "DESCONOCIDO" := by
        unfold compare_versions; rw [if_pos hg]
      have e2 : compare_versions b a = "DESCONOCIDO" := by
        unfold compare_versions; rw [if_pos hg.symm]
      rw [e1, e2]; decide
    · have hg' : ¬(b = "" ∨ a = "") := fun h => hg h.symm
      rcases hpa : parseParts a with _ | pa <;> rcases hpb : parseParts b with _ | pb
      · rw [compare_versions_fallback a b hg (Or.inl hpa),
            compare_versions_fallback b a hg' (Or.inl hpb)]
        by_cases hab : a = b
        · rw [if_pos hab, if_pos hab.symm]; decide
        · rw [if_neg hab, if_neg (fun h : b = a => hab h.symm)]; decide
      · rw [compare_versions_fallback a b hg (Or.inl hpa),
            compare_versions_fallback b a hg' (Or.inr hpa)]
        by_cases hab : a = b
        · rw [if_pos hab, if_pos hab.symm]; decide
        · rw [if_neg hab, if_neg (fun h : b = a => hab h.symm)]; decide
      · rw [compare_versions_fallback a b hg (Or.inr hpb),
            compare_versions_fallback b a hg' (Or.inl hpb)]
        by_cases hab : a = b
        · rw [if_pos hab, if_pos hab.symm]; decide
        · rw [if_neg hab, if_neg (fun h : b = a => hab h.symm)]; decide
      · rw [compare_versions_parsed a b pa pb hpa hpb,
            compare_versions_parsed b a pb pa hpb hpa]
        rw [Nat.max_comm pb.length pa.length]
        set L1 := padZeros pa (max pa.length pb.length)
        set L2 := padZeros pb (max pa.length pb.length)
        by_cases h21 : pyListLt L2 L1 = true
        · have h12 : pyListLt L1 L2 = false := pyListLt_asymm _ _ h21
          simp [h21, h12]
        · by_cases h12 : pyListLt L1 L2 = true
          · simp [h21, h12]
          · simp [h21, h12]
  · intro a ha
    rcases hpa : parseParts a with _ | pa
    · rw [compare_versions_fallback a a (by simp [ha]) (Or.inl hpa)]
      simp
    · rw [compare_versions_parsed a a pa pa hpa hpa]
      simp [Nat.max_self, padZeros_self, pyListLt_irrefl]

/-- Witness for claim C8 at `a = "1.2"` (and the antisymmetry conjunct at
`("1.10", "1.9")`). -/
theorem claim_C8_witness :
    compare_versions "1.2" "1.2" = "IGUAL"
    ∧ (compare_versions "1.10" "1.9" = "ACTUALIZADO" ↔
        compare_versions "1.9" "1.10" = "DESACTUALIZADO") :=
  ⟨claim_C8_amended.2 "1.2" (by decide), claim_C8_amended.1 "1.10" "1.9"⟩

theorem acceptsMaxPagesKeyword_false (cls : ScraperClass) :
    acceptsMaxPagesKeyword cls = false := by
  cases cls <;> rfl

theorem dictLookup_append_left {α : Type} (d l : PyDict α) (k : String)
    (h : (dictLookup d k).isSome) : dictLookup (d ++ l) k = dictLookup d k := by
  induction d with
  | nil => simp [dictLookup] at h
  | cons hd tl ih =>
    obtain ⟨k', v'⟩ := hd
    by_cases hk : k' = k
    · simp [dictLookup, hk]
    · rw [List.cons_append]
      show (if k' = k then some v' else dictLookup (tl ++ l) k) = _
      rw [if_neg hk]
      rw [show dictLookup ((k', v') :: tl) k = dictLookup tl k from by
        simp [dictLookup, hk]] at h ⊢
      exact ih h

/-- Claim C1 (code bug): for any registered task — and any would-be crawl
result `crawl`, i.e. even when every page fetch would succeed — executing the
task never reaches the SUCCEEDED (`finished`) descriptor the claim promises.
`_perform_scrape` calls `scraper_instance.scrape_plugins(max_pages=
task.page_limit)` (`src/scraper_coordinator.py`, line 71), but both scraper
classes declare `def scrape_plugins(self):` with no `max_pages` parameter
(`src/scraper.py`, lines 35 and 185), so the call raises `TypeError` before
any fetch and the descriptor always ends `failed` with an error message, no
item count and no completion timestamp. -/
theorem claim_C1_execute_task_always_fails
    (registry : PyDict ScraperTask) (taskId : String) (cls : ScraperClass)
    (pages : Nat) (crawl : ScraperClass → Nat → PyDict PluginRec) (now : String) :
    (run_to_completion (register_task registry taskId cls pages) taskId crawl now).map
        (fun reg => dictLookup reg taskId)
      = .ok (some ⟨taskId, cls, TaskState.failed, [], 0, none,
          some typeErrorMaxPages, pages⟩) := by
  simp only [run_to_completion, execute_task, register_task, mkScraperTask,
    dictLookup_dictInsert_self, perform_scrape, acceptsMaxPagesKeyword_false,
    Bool.false_eq_true, if_false, reduceCtorEq, Except.map]

/-- Claim C10 counterexample: `register_task` on an id whose descriptor is
currently ACTIVE does NOT leave the running descriptor unchanged — it
replaces it with a fresh PENDING descriptor carrying the new page limit
(`src/scraper_coordinator.py`, lines 42-50 perform an unconditional store). -/
theorem claim_C10_counterexample :
    dictLookup (register_task [("t", taskActiveExample)] "t" ScraperClass.weadownCls 5) "t"
      = some (mkScraperTask "t" ScraperClass.weadownCls 5)
    ∧ taskActiveExample.state = TaskState.active
    ∧ ¬ mkScraperTask "t" ScraperClass.weadownCls 5 = taskActiveExample
    ∧ ¬ (mkScraperTask "t" ScraperClass.weadownCls 5).page_limit
        = taskActiveExample.page_limit := by
  decide

/-- Claim C10 (amended): `register_task` unconditionally overwrites any
existing descriptor — ACTIVE or not — with a fresh PENDING one; the
single-live-execution guard lives in `execute_task` instead, which returns
`False` and leaves the registry untouched when the task is ACTIVE. -/
theorem claim_C10_amended :
    (∀ registry taskId cls pages,
        dictLookup (register_task registry taskId cls pages) taskId
          = some (mkScraperTask taskId cls pages))
    ∧ (∀ registry taskId t, dictLookup registry taskId = some t →
        t.state = TaskState.active →
        execute_task registry taskId = .ok (false, registry)) := by
  constructor
  · intro registry taskId cls pages
    exact dictLookup_dictInsert_self registry taskId (mkScraperTask taskId cls pages)
  · intro registry taskId t hlook hact
    unfold execute_task
    rw [hlook]
    simp [hact]

/-- Witness for claim C10: the ACTIVE guard of `execute_task` at a concrete
registry, and the unconditional overwrite at the empty registry. -/
theorem claim_C10_witness :
    execute_task [("t", taskActiveExample)] "t" = .ok (false, [("t", taskActiveExample)])
    ∧ dictLookup (register_task [] "t" ScraperClass.weadownCls 5) "t"
        = some (mkScraperTask "t" ScraperClass.weadownCls 5) :=
  ⟨claim_C10_amended.2 [("t", taskActiveExample)] "t" taskActiveExample
      (by decide) (by decide),
   claim_C10_amended.1 [] "t" ScraperClass.weadownCls 5⟩

/-- Claim C2 counterexample: a transport error on page 1 does NOT surface as
a task failure.  With every fetch failing, the loop's raise flag is set
(`raise` on page 1, `src/scraper.py` line 61) but the crawl boundary
`scrape_plugins` — whose outer `except Exception` (lines 133-134) swallows
the re-raised error — returns a plain empty catalog, indistinguishable from a
successful empty crawl; no failure signal crosses the boundary. -/
theorem claim_C2_counterexample :
    WeadownScraper.scrapeLoop noneText noneText envAllFail
        (List.range' 1 WeadownScraper.MAX_PAGES) [] = ([], true)
    ∧ WeadownScraper.scrape_plugins noneText noneText envAllFail = [] := by
  decide

/-- Claim C2 (amended): a transport error on a page other than page 1 stops
pagination, preserving and returning the partial catalog, with nothing
raised; a transport error on page 1 is re-raised internally but caught by the
crawl's own outer handler, so the crawl returns an empty catalog normally
instead of surfacing a task failure; in no case does an exception escape the
crawl boundary (`scrape_plugins` always returns the accumulated catalog,
discarding the raise flag). -/
theorem claim_C2_amended :
    (∀ clean extractV env p rest acc, env p = PageFetch.transportError → ¬ p = 1 →
        WeadownScraper.scrapeLoop clean extractV env (p :: rest) acc = (acc, false))
    ∧ (∀ clean extractV env, env 1 = PageFetch.transportError →
        WeadownScraper.scrapeLoop clean extractV env
            (List.range' 1 WeadownScraper.MAX_PAGES) [] = ([], true)
          ∧ WeadownScraper.scrape_plugins clean extractV env = [])
    ∧ (∀ clean extractV env, WeadownScraper.scrape_plugins clean extractV env
        = (WeadownScraper.scrapeLoop clean extractV env
            (List.range' 1 WeadownScraper.MAX_PAGES) []).1) := by
  refine ⟨?_, ?_, fun _ _ _ => rfl⟩
  · intro clean extractV env p rest acc henv hp1
    unfold WeadownScraper.scrapeLoop
    rw [henv, if_neg hp1]
  · intro clean extractV env h1
    have hloop : WeadownScraper.scrapeLoop clean extractV env
        (List.range' 1 WeadownScraper.MAX_PAGES) [] = ([], true) := by
      rw [show List.range' 1 WeadownScraper.MAX_PAGES
            = 1 :: List.range' 2 9 from rfl]
      unfold WeadownScraper.scrapeLoop
      rw [h1]
      rfl
    exact ⟨hloop, by unfold WeadownScraper.scrape_plugins; rw [hloop]⟩

/-- Witness for claim C2: a page-2 transport error preserves the partial
catalog at a concrete input, and the all-failing environment returns the
empty catalog with no escaping exception. -/
theorem claim_C2_witness :
    WeadownScraper.scrapeLoop noneText noneText envAllFail [2] [("a", recExample)]
      = ([("a", recExample)], false)
    ∧ WeadownScraper.scrape_plugins noneText noneText envAllFail = [] :=
  ⟨claim_C2_amended.1 noneText noneText envAllFail 2 [] [("a", recExample)]
      rfl (by decide),
   (claim_C2_amended.2.1 noneText noneText envAllFail rfl).2⟩

/-- Claim C5 counterexample: name-collision handling is NOT last-writer-wins
for every crawler.  `PluginswpScraper._parse_page_content` keeps the FIRST
record for a name (`src/scraper.py` lines 269-276, "Only add if not already
present"): with both titles cleaning to `"n"`, the catalog keeps `t1`'s data.
And `scrape_plugins_weadown` (`scrapers/scraper_plugins_weadown.py`, lines
124-130) appends rows to a list, so two titles with the same cleaned name
leave two rows — names are not even unique there. -/
theorem claim_C5_counterexample :
    PluginswpScraper.parse_page_content constNameClean titleEcho [artT1, artT2] []
      = [("n", ⟨some "t1", some "http://u1", "t1"⟩)]
    ∧ [artT1, artT2].foldl (ScrapersWeadown.parseArticle constNameCleanS emptyText) []
      = [⟨"n", "", "http://u1", "t1"⟩, ⟨"n", "", "http://u2", "t2"⟩] := by
  decide

/-- Claim C5 (amended): collision policy is per-crawler.  `WeadownScraper`'s
dict catalog is last-writer-wins: after processing any article list ending in
a valid article with cleaned name `name`, the catalog maps `name` to that
last article's record.  `PluginswpScraper`'s dict catalog keeps names unique
but is FIRST-writer-wins: a bound name is never overwritten by
`_parse_page_content`.  The CSV scraper accumulates a list and keeps
duplicate names: a valid article is always appended, bound name or not. -/
theorem claim_C5_amended :
    (∀ clean extractV as d flag t name u, clean t = some name →
        dictLookup (((as ++ [⟨some t, some u⟩]).foldl
            (WeadownScraper.parseArticle clean extractV) (d, flag)).1) name
          = some ⟨extractV t, resolveUrl WeadownScraper.BASE_URL u, t⟩)
    ∧ (∀ clean extractV articles plugins name, (dictLookup plugins name).isSome →
        dictLookup (PluginswpScraper.parse_page_content clean extractV articles plugins) name
          = dictLookup plugins name)
    ∧ (∀ cS eS rows t u, ¬ cS t = "" →
        ScrapersWeadown.parseArticle cS eS rows ⟨some t, some u⟩
          = rows ++ [⟨cS t, eS t, resolveUrl ScrapersWeadown.base_url u, t⟩]) := by
  refine ⟨?_, ?_, ?_⟩
  · intro clean extractV as d flag t name u hc
    rw [List.foldl_append]
    simp only [List.foldl]
    simp only [WeadownScraper.parseArticle, hc, Option.map_some',
      WeadownScraper.insertWd]
    exact dictLookup_dictInsert_self _ _ _
  · intro clean extractV articles
    induction articles with
    | nil => intro plugins name h; rfl
    | cons a rest ih =>
      intro plugins name h
      obtain ⟨titleOpt, hrefOpt⟩ := a
      have hstep : (dictLookup
            (PluginswpScraper.parseArticle clean extractV plugins ⟨titleOpt, hrefOpt⟩) name
            = dictLookup plugins name)
          ∧ (dictLookup
            (PluginswpScraper.parseArticle clean extractV plugins ⟨titleOpt, hrefOpt⟩)
              name).isSome := by
        cases titleOpt with
        | none => exact ⟨rfl, h⟩
        | some t =>
          simp only [PluginswpScraper.parseArticle]
          rcases hc : clean t with _ | nm
          · exact ⟨rfl, h⟩
          · simp only [PluginswpScraper.insertPw]
            by_cases hin : (dictLookup plugins nm).isSome
            · rw [if_pos hin]
              exact ⟨rfl, h⟩
            · rw [if_neg hin]
              refine ⟨dictLookup_append_left plugins _ name h, ?_⟩
              rw [dictLookup_append_left plugins _ name h]
              exact h
      have hrest := ih
        (PluginswpScraper.parseArticle clean extractV plugins ⟨titleOpt, hrefOpt⟩)
        name hstep.2
      calc dictLookup
            (PluginswpScraper.parse_page_content clean extractV
              (⟨titleOpt, hrefOpt⟩ :: rest) plugins) name
          = dictLookup (PluginswpScraper.parse_page_content clean extractV rest
              (PluginswpScraper.parseArticle clean extractV plugins
                ⟨titleOpt, hrefOpt⟩)) name := rfl
        _ = dictLookup
              (PluginswpScraper.parseArticle clean extractV plugins
                ⟨titleOpt, hrefOpt⟩) name := hrest
        _ = dictLookup plugins name := hstep.1
  · intro cS eS rows t u hne
    simp only [ScrapersWeadown.parseArticle]
    rw [if_neg hne]

/-- Witness for claim C5: last-writer-wins in the Weadown dict catalog,
first-writer-wins in the Pluginswp catalog, and duplicate-keeping in the CSV
list catalog, each at concrete colliding inputs. -/
theorem claim_C5_witness :
    dictLookup ((([artT1] ++ [artT2]).foldl
        (WeadownScraper.parseArticle constNameClean titleEcho) ([], false)).1) "n"
      = some ⟨some "t2", "http://u2", "t2"⟩
    ∧ dictLookup (PluginswpScraper.parse_page_content constNameClean titleEcho [artT2]
        [("n", ⟨some "t1", some "http://u1", "t1"⟩)]) "n"
      = some ⟨some "t1", some "http://u1", "t1"⟩
    ∧ ScrapersWeadown.parseArticle constNameCleanS emptyText [] artT2
      = [⟨"n", "", "http://u2", "t2"⟩] := by
  refine ⟨?_, ?_, ?_⟩
  · exact claim_C5_amended.1 constNameClean titleEcho [artT1] [] false "t2" "n"
      "http://u2" rfl
  · have := claim_C5_amended.2.1 constNameClean titleEcho [artT2]
      [("n", ⟨some "t1", some "http://u1", "t1"⟩)] "n" (by decide)
    rw [this]
    decide
  · exact claim_C5_amended.2.2 constNameCleanS emptyText [] "t2" "http://u2" (by decide)

/-- Claim C6 counterexample: classic pagination has no duplicate-page
detection.  With `max_pages = 5`, page 2 yielding exactly the records of
page 1 (zero new records) and page 3 a fresh record, `scrape_plugins_weadown`
still fetches page 3: its record `"b"` appears in the output, so the crawl
did not end after page 2 as the claim requires. -/
theorem claim_C6_counterexample :
    ScrapersWeadown.scrape_plugins_weadown idText emptyText envDupPage 5
      = [⟨"a", "", "http://x/a", "a"⟩, ⟨"a", "", "http://x/a", "a"⟩,
         ⟨"b", "", "http://x/b", "b"⟩]
    ∧ (⟨"b", "", "http://x/b", "b"⟩ : CsvRow)
        ∈ ScrapersWeadown.scrape_plugins_weadown idText emptyText envDupPage 5 := by
  decide

/-- Claim C6 (amended): classic pagination stops as soon as a page returns a
not-found status, a transport error, or zero containers (`scrape_plugins_
weadown`), and `WeadownScraper` additionally stops on a page none of whose
containers yields a valid record; there is no zero-NEW-records
(duplicate-page) stop in either classic crawler. -/
theorem claim_C6_amended :
    (∀ cS eS env p rest rows, env p = PageFetch.notFound →
        ScrapersWeadown.scrapeLoop cS eS env (p :: rest) rows = rows)
    ∧ (∀ cS eS env p rest rows, env p = PageFetch.transportError →
        ScrapersWeadown.scrapeLoop cS eS env (p :: rest) rows = rows)
    ∧ (∀ cS eS env p rest rows, env p = PageFetch.ok [] →
        ScrapersWeadown.scrapeLoop cS eS env (p :: rest) rows = rows)
    ∧ (∀ clean extractV env p rest plugins articles, env p = PageFetch.ok articles →
        ¬ articles = [] →
        (articles.foldl (WeadownScraper.parseArticle clean extractV) (plugins, false)).2
          = false →
        WeadownScraper.scrapeLoop clean extractV env (p :: rest) plugins
          = ((articles.foldl (WeadownScraper.parseArticle clean extractV)
              (plugins, false)).1, false)) := by
  refine ⟨?_, ?_, ?_, ?_⟩
  · intro cS eS env p rest rows henv
    unfold ScrapersWeadown.scrapeLoop
    rw [henv]
  · intro cS eS env p rest rows henv
    unfold ScrapersWeadown.scrapeLoop
    rw [henv]
  · intro cS eS env p rest rows henv
    unfold ScrapersWeadown.scrapeLoop
    rw [henv]
    rfl
  · intro clean extractV env p rest plugins articles henv harts hres
    unfold WeadownScraper.scrapeLoop
    rw [henv]
    simp [harts, hres]

/-- Witness for claim C6: the not-found stop and the no-valid-record stop at
concrete inputs. -/
theorem claim_C6_witness :
    ScrapersWeadown.scrapeLoop idText emptyText envDupPage [4]
        [⟨"a", "", "http://x/a", "a"⟩] = [⟨"a", "", "http://x/a", "a"⟩]
    ∧ WeadownScraper.scrapeLoop noneText noneText envDupPage [1, 2] [] = ([], false) :=
  ⟨claim_C6_amended.1 idText emptyText envDupPage 4 []
      [⟨"a", "", "http://x/a", "a"⟩] (by decide),
   claim_C6_amended.2.2.2 noneText noneText envDupPage 1 [2] [] [artA]
      (by decide) (by decide) (by decide)⟩

/-! ## Helper lemmas on the greedy search -/

theorem bestStep_cases (sim : String → String → ℚ) (n : String) (matched : List Nat)
    (acc : BestAcc) (iwp : Nat × PluginRow) :
    bestStep sim n matched acc iwp = acc
    ∨ (bestStep sim n matched acc iwp = ⟨sim n iwp.2.nombre, some iwp⟩
        ∧ iwp.1 ∉ matched ∧ acc.bestSim < sim n iwp.2.nombre) := by
  unfold bestStep
  by_cases hm : iwp.1 ∈ matched
  · left; rw [if_pos hm]
  · rw [if_neg hm]
    by_cases hlt : acc.bestSim < sim n iwp.2.nombre
    · right
      exact ⟨by rw [if_pos hlt], hm, hlt⟩
    · left; rw [if_neg hlt]

theorem bestSearch_aux (sim : String → String → ℚ) (n : String) (matched : List Nat) :
    ∀ (iwps : List (Nat × PluginRow)) (acc : BestAcc),
      acc.bestSim ≤ (iwps.foldl (bestStep sim n matched) acc).bestSim
      ∧ ((0 < acc.bestSim → acc.best.isSome) →
          0 < (iwps.foldl (bestStep sim n matched) acc).bestSim →
            ((iwps.foldl (bestStep sim n matched) acc).best.isSome))
      ∧ ((∀ i wp, acc.best = some (i, wp) → i ∉ matched) →
          ∀ i wp, (iwps.foldl (bestStep sim n matched) acc).best = some (i, wp) →
            i ∉ matched)
      ∧ ((∀ a b, sim a b ≤ 1) → acc.bestSim ≤ 1 →
          (iwps.foldl (bestStep sim n matched) acc).bestSim ≤ 1) := by
  intro iwps
  induction iwps with
  | nil =>
    intro acc
    exact ⟨le_refl _, fun h => h, fun h => h, fun _ h => h⟩
  | cons iwp rest ih =>
    intro acc
    rw [List.foldl_cons]
    rcases bestStep_cases sim n matched acc iwp with hc | ⟨hc, hm, hlt⟩
    · rw [hc]
      exact ih acc
    · rw [hc]
      obtain ⟨ih1, ih2, ih3, ih4⟩ := ih ⟨sim n iwp.2.nombre, some iwp⟩
      refine ⟨le_trans (le_of_lt hlt) ih1, fun _ => ih2 (fun _ => rfl), ?_, ?_⟩
      · intro _ i wp hbest
        refine ih3 ?_ i wp hbest
        intro i' wp' hsome
        obtain ⟨hi, _⟩ := Prod.mk.injEq .. ▸ Option.some.injEq _ _ ▸ hsome
        cases hsome
        exact hm
      · intro hs _
        exact ih4 hs (hs n iwp.2.nombre)

theorem bestSearch_nonneg (sim : String → String → ℚ) (n : String)
    (iwps : List (Nat × PluginRow)) (matched : List Nat) :
    0 ≤ (bestSearch sim n iwps matched).bestSim := by
  have h := (bestSearch_aux sim n matched iwps ⟨0.0, none⟩).1
  calc (0 : ℚ) ≤ (0.0 : ℚ) := by norm_num
    _ ≤ _ := h

theorem bestSearch_pos_some (sim : String → String → ℚ) (n : String)
    (iwps : List (Nat × PluginRow)) (matched : List Nat)
    (h : 0 < (bestSearch sim n iwps matched).bestSim) :
    ((bestSearch sim n iwps matched).best.isSome) := by
  refine (bestSearch_aux sim n matched iwps ⟨0.0, none⟩).2.1 ?_ h
  intro h0
  norm_num at h0

theorem bestSearch_not_mem (sim : String → String → ℚ) (n : String)
    (iwps : List (Nat × PluginRow)) (matched : List Nat) (i : Nat) (wp : PluginRow)
    (h : (bestSearch sim n iwps matched).best = some (i, wp)) : i ∉ matched := by
  refine (bestSearch_aux sim n matched iwps ⟨0.0, none⟩).2.2.1 ?_ i wp h
  intro i' wp' hsome
  exact absurd hsome (by simp)

theorem bestSearch_le_one (sim : String → String → ℚ) (n : String)
    (iwps : List (Nat × PluginRow)) (matched : List Nat)
    (hs : ∀ a b, sim a b ≤ 1) :
    (bestSearch sim n iwps matched).bestSim ≤ 1 := by
  refine (bestSearch_aux sim n matched iwps ⟨0.0, none⟩).2.2.2 hs ?_
  norm_num

theorem similarity_le_one (score : String → String → ℚ)
    (h : ∀ a b, score a b ≤ 1) : ∀ a b, similarity score a b ≤ 1 := by
  intro a b
  unfold similarity
  by_cases hg : a = "" ∨ b = ""
  · rw [if_pos hg]; norm_num
  · rw [if_neg hg]; exact h _ _

/-! ## Helper lemmas on the matching pass -/

theorem passStep_steps (sim : String → String → ℚ) (iwps : List (Nat × PluginRow))
    (st : PassState) (wd : PluginRow) :
    (passStep sim iwps st wd).steps
      = st.steps ++ [⟨wd, (bestSearch sim wd.nombre iwps st.matched).bestSim,
          (bestSearch sim wd.nombre iwps st.matched).best⟩] := by
  simp only [passStep]
  rcases hbb : (bestSearch sim wd.nombre iwps st.matched).best with _ | ⟨i, wp⟩ <;>
    by_cases hth : (0.80 : ℚ) ≤ (bestSearch sim wd.nombre iwps st.matched).bestSim <;>
    simp [passStepCore, hth]

theorem passStep_inv (sim : String → String → ℚ) (iwps : List (Nat × PluginRow))
    (st : PassState) (wd : PluginRow) (h : PassInv st) :
    PassInv (passStep sim iwps st wd) := by
  obtain ⟨he, hsm, hf, hm, hnd⟩ := h
  have hb := bestSearch_not_mem sim wd.nombre iwps st.matched
  simp only [passStep]
  rcases hbb : (bestSearch sim wd.nombre iwps st.matched).best with _ | ⟨i, wp⟩
  · by_cases hth : (0.80 : ℚ) ≤ (bestSearch sim wd.nombre iwps st.matched).bestSim
    · refine ⟨?_, ?_, ?_, ?_, ?_⟩ <;>
        simp [passStepCore, hth, List.filterMap_append, ← he, ← hsm, ← hf, ← hm, hnd,
          exactOfCode, similarOfCode, missingOf, consumedOf, not_lt.mpr hth]
    · refine ⟨?_, ?_, ?_, ?_, ?_⟩ <;>
        simp [passStepCore, hth, List.filterMap_append, ← he, ← hsm, ← hf, ← hm, hnd,
          exactOfCode, similarOfCode, missingOf, consumedOf, not_le.mp hth]
  · have hiNot : i ∉ st.matched := hb i wp hbb
    by_cases hth : (0.80 : ℚ) ≤ (bestSearch sim wd.nombre iwps st.matched).bestSim
    · refine ⟨?_, ?_, ?_, ?_, ?_⟩
      · by_cases hb1 : (bestSearch sim wd.nombre iwps st.matched).bestSim = 1 <;>
          simp [passStepCore, hth, hb1, List.filterMap_append, ← he,
            exactOfCode, mkMatchRow, (by norm_num : (0.80 : ℚ) ≤ 1)]
      · by_cases hb1 : (bestSearch sim wd.nombre iwps st.matched).bestSim = 1 <;>
          simp [passStepCore, hth, hb1, List.filterMap_append, ← hsm,
            similarOfCode, mkMatchRow, (by norm_num : (0.80 : ℚ) ≤ 1)]
      · simp [passStepCore, hth, List.filterMap_append, ← hf, missingOf,
          not_lt.mpr hth]
      · simp [passStepCore, hth, List.filterMap_append, ← hm, consumedOf]
      · simp only [passStepCore, if_pos hth]
        rw [List.nodup_append]
        exact ⟨hnd, List.nodup_singleton i, by simpa using hiNot⟩
    · refine ⟨?_, ?_, ?_, ?_, ?_⟩ <;>
        simp [passStepCore, hth, List.filterMap_append, ← he, ← hsm, ← hf, ← hm, hnd,
          exactOfCode, similarOfCode, missingOf, consumedOf, not_le.mp hth]

theorem foldl_passStep_inv (sim : String → String → ℚ) (iwps : List (Nat × PluginRow)) :
    ∀ (wds : List PluginRow) (st : PassState), PassInv st →
      PassInv (wds.foldl (passStep sim iwps) st) := by
  intro wds
  induction wds with
  | nil => intro st h; exact h
  | cons wd rest ih =>
    intro st h
    rw [List.foldl_cons]
    exact ih _ (passStep_inv _ _ _ _ h)

theorem initState_inv : PassInv initState :=
  ⟨rfl, rfl, rfl, rfl, List.nodup_nil⟩

theorem runPass_inv (score : String → String → ℚ) (wps wds : List PluginRow) :
    PassInv (runPass score wps wds) :=
  foldl_passStep_inv _ _ wds initState initState_inv

theorem foldl_passStep_steps_wd (sim : String → String → ℚ)
    (iwps : List (Nat × PluginRow)) :
    ∀ (wds : List PluginRow) (st : PassState),
      ((wds.foldl (passStep sim iwps) st).steps).map StepInfo.wd
        = st.steps.map StepInfo.wd ++ wds := by
  intro wds
  induction wds with
  | nil => intro st; simp
  | cons wd rest ih =>
    intro st
    rw [List.foldl_cons, ih, passStep_steps]
    simp

theorem runPass_steps_wd (score : String → String → ℚ) (wps wds : List PluginRow) :
    ((runPass score wps wds).steps).map StepInfo.wd = wds := by
  have h := foldl_passStep_steps_wd (similarity score) wps.enum wds initState
  simpa [runPass, initState] using h

theorem foldl_passStep_steps_bound (sim : String → String → ℚ)
    (iwps : List (Nat × PluginRow)) (hs : ∀ a b, sim a b ≤ 1) :
    ∀ (wds : List PluginRow) (st : PassState),
      (∀ s ∈ st.steps, 0 ≤ s.bestSim ∧ s.bestSim ≤ 1
        ∧ ((0.80 : ℚ) ≤ s.bestSim → (s.best.isSome))) →
      ∀ s ∈ (wds.foldl (passStep sim iwps) st).steps,
        0 ≤ s.bestSim ∧ s.bestSim ≤ 1 ∧ ((0.80 : ℚ) ≤ s.bestSim → (s.best.isSome)) := by
  intro wds
  induction wds with
  | nil => intro st h; exact h
  | cons wd rest ih =>
    intro st h
    rw [List.foldl_cons]
    refine ih _ ?_
    intro s hsMem
    rw [passStep_steps] at hsMem
    rcases List.mem_append.mp hsMem with hold | hnew
    · exact h s hold
    · have hse : s = ⟨wd, (bestSearch sim wd.nombre iwps st.matched).bestSim,
          (bestSearch sim wd.nombre iwps st.matched).best⟩ := by
        simpa using hnew
      subst hse
      refine ⟨bestSearch_nonneg _ _ _ _, bestSearch_le_one _ _ _ _ hs, ?_⟩
      intro hth
      exact bestSearch_pos_some _ _ _ _
        (lt_of_lt_of_le (by norm_num : (0 : ℚ) < 0.80) hth)

theorem runPass_steps_bound (score : String → String → ℚ)
    (h1 : ∀ a b, score a b ≤ 1) (wps wds : List PluginRow) :
    ∀ s ∈ (runPass score wps wds).steps,
      0 ≤ s.bestSim ∧ s.bestSim ≤ 1 ∧ ((0.80 : ℚ) ≤ s.bestSim → (s.best.isSome)) := by
  refine foldl_passStep_steps_bound (similarity score) wps.enum
    (similarity_le_one score h1) wds initState ?_
  intro s hs
  simp [initState] at hs

theorem filterMapCongr {α β : Type} {f g : α → Option β} :
    ∀ l : List α, (∀ a ∈ l, f a = g a) → l.filterMap f = l.filterMap g := by
  intro l
  induction l with
  | nil => intro _; rfl
  | cons a rest ih =>
    intro h
    rw [List.filterMap_cons, List.filterMap_cons, h a (by simp),
      ih (fun x hx => h x (by simp [hx]))]

theorem filterMap_three_length {α β γ δ : Type} (f : α → Option β) (g : α → Option γ)
    (hh : α → Option δ) :
    ∀ l : List α,
      (∀ a ∈ l, (f a).isSome.toNat + (g a).isSome.toNat + (hh a).isSome.toNat = 1) →
      (l.filterMap f).length + (l.filterMap g).length + (l.filterMap hh).length
        = l.length := by
  intro l
  induction l with
  | nil => intro _; rfl
  | cons a rest ih =>
    intro h
    have ha := h a (by simp)
    have hr := ih (fun x hx => h x (by simp [hx]))
    rw [List.filterMap_cons, List.filterMap_cons, List.filterMap_cons]
    rcases hfa : f a with _ | b <;> rcases hga : g a with _ | c <;>
      rcases hha : hh a with _ | d <;>
      simp [hfa, hga, hha] at ha ⊢ <;> omega

/-- Claim C3: in one matching pass with threshold `0.80`, every reference
item whose best not-yet-consumed score is exactly `1.0` contributes its
record to `exactas` (EXACT), one with best score in `[0.80, 1.0)` to
`similares` (SIMILAR), and one with best score below `0.80` to `faltantes`
(MISSING); the step log covers the reference catalog one-to-one, scores lie
in `[0, 1]`, and the three output lists partition the reference items — each
emits exactly one record in exactly one class. -/
theorem claim_C3_classification (score : String → String → ℚ)
    (h0 : ∀ a b, 0 ≤ score a b) (h1 : ∀ a b, score a b ≤ 1)
    (wps wds : List PluginRow) :
    ((runPass score wps wds).steps.map StepInfo.wd = wds)
    ∧ (∀ s ∈ (runPass score wps wds).steps, 0 ≤ s.bestSim ∧ s.bestSim ≤ 1)
    ∧ (runPass score wps wds).exactas
        = (runPass score wps wds).steps.filterMap exactOf
    ∧ (runPass score wps wds).similares
        = (runPass score wps wds).steps.filterMap similarOf
    ∧ (runPass score wps wds).faltantes
        = (runPass score wps wds).steps.filterMap missingOf
    ∧ (runPass score wps wds).exactas.length + (runPass score wps wds).similares.length
        + (runPass score wps wds).faltantes.length = wds.length := by
  obtain ⟨he, hsm, hf, hm, hnd⟩ := runPass_inv score wps wds
  have hbd := runPass_steps_bound score h1 wps wds
  have hwd := runPass_steps_wd score wps wds
  have hex : ∀ s ∈ (runPass score wps wds).steps, exactOfCode s = exactOf s := by
    intro s hs
    rcases hsb : s.best with _ | ⟨i, wp⟩
    · simp [exactOfCode, exactOf, hsb]
    · by_cases hb1 : s.bestSim = 1
      · simp [exactOfCode, exactOf, hsb, hb1, (by norm_num : (0.80 : ℚ) ≤ 1)]
      · simp [exactOfCode, exactOf, hsb, hb1]
  have hsc : ∀ s ∈ (runPass score wps wds).steps, similarOfCode s = similarOf s := by
    intro s hs
    obtain ⟨_, hle1, _⟩ := hbd s hs
    rcases hsb : s.best with _ | ⟨i, wp⟩
    · simp [similarOfCode, similarOf, hsb]
    · by_cases hth : (0.80 : ℚ) ≤ s.bestSim
      · by_cases hb1 : s.bestSim = 1
        · simp [similarOfCode, similarOf, hsb, hth, hb1]
        · have hlt : s.bestSim < 1 := lt_of_le_of_ne hle1 hb1
          simp [similarOfCode, similarOf, hsb, hth, hb1, hlt]
      · simp [similarOfCode, similarOf, hsb, hth]
  have hcount : ∀ s ∈ (runPass score wps wds).steps,
      (exactOf s).isSome.toNat + (similarOf s).isSome.toNat
        + (missingOf s).isSome.toNat = 1 := by
    intro s hs
    obtain ⟨h0s, hle1, hsome⟩ := hbd s hs
    by_cases hth : (0.80 : ℚ) ≤ s.bestSim
    · obtain ⟨⟨i, wp⟩, hsb⟩ := Option.isSome_iff_exists.mp (hsome hth)
      by_cases hb1 : s.bestSim = 1
      · simp [exactOf, similarOf, missingOf, hsb, hb1, hth, not_lt.mpr hth,
          (by norm_num : (0.80 : ℚ) ≤ 1)]
      · have hlt : s.bestSim < 1 := lt_of_le_of_ne hle1 hb1
        simp [exactOf, similarOf, missingOf, hsb, hb1, hth, hlt, not_lt.mpr hth]
    · have hlt : s.bestSim < 0.80 := not_le.mp hth
      have h1ne : ¬ s.bestSim = 1 := by
        intro hcon
        rw [hcon] at hlt
        norm_num at hlt
      rcases hsb : s.best with _ | ⟨i, wp⟩
      · simp [exactOf, similarOf, missingOf, hsb, hlt, hth, h1ne]
      · simp [exactOf, similarOf, missingOf, hsb, hlt, hth, h1ne]
  refine ⟨hwd, fun s hs => ⟨(hbd s hs).1, (hbd s hs).2.1⟩, ?_, ?_, hf, ?_⟩
  · rw [he]
    exact filterMapCongr _ hex
  · rw [hsm]
    exact filterMapCongr _ hsc
  · have hlen := filterMap_three_length exactOf similarOf missingOf
      (runPass score wps wds).steps hcount
    have hsl : (runPass score wps wds).steps.length = wds.length := by
      conv_rhs => rw [← hwd]
      rw [List.length_map]
    rw [he, filterMapCongr _ hex, hsm, filterMapCongr _ hsc, hf, hlen, hsl]

/-- Witness for claim C3 at the constant score 1 on one-element catalogs. -/
theorem claim_C3_witness :
    ((runPass scoreOne [rowWp] [rowWd]).steps.map StepInfo.wd = [rowWd])
    ∧ (runPass scoreOne [rowWp] [rowWd]).exactas
        = (runPass scoreOne [rowWp] [rowWd]).steps.filterMap exactOf := by
  have h := claim_C3_classification scoreOne
    (fun _ _ => by norm_num [scoreOne]) (fun _ _ => by norm_num [scoreOne])
    [rowWp] [rowWd]
  exact ⟨h.1, h.2.2.1⟩

/-- Claim C7: across one matching pass each candidate index is consumed by at
most one reference item (the consumed-index log has no duplicates and is
exactly the `matched_wp_indices` skip set), and the best-candidate search
never returns an index already in the skip set — a consumed candidate is
excluded from every later reference item's search. -/
theorem claim_C7_candidate_consumed_once :
    (∀ score wps wds,
        (((runPass score wps wds).steps.filterMap consumedOf).Nodup)
        ∧ (runPass score wps wds).matched
            = (runPass score wps wds).steps.filterMap consumedOf)
    ∧ (∀ sim wdNombre iwps matched i wp,
        (bestSearch sim wdNombre iwps matched).best = some (i, wp) → i ∉ matched) := by
  constructor
  · intro score wps wds
    obtain ⟨_, _, _, hm, hnd⟩ := runPass_inv score wps wds
    exact ⟨hm ▸ hnd, hm⟩
  · exact fun sim n iwps matched i wp h => bestSearch_not_mem sim n iwps matched i wp h

/-- Witness for claim C7: the consumed-index log at a concrete pass, and the
search-exclusion conjunct at a concrete search hypothesis. -/
theorem claim_C7_witness :
    ((runPass scoreOne [rowWp] [rowWd]).steps.filterMap consumedOf).Nodup
    ∧ (0 : Nat) ∉ ([] : List Nat) :=
  ⟨(claim_C7_candidate_consumed_once.1 scoreOne [rowWp] [rowWd]).1,
   claim_C7_candidate_consumed_once.2 (similarity scoreOne) "akismet"
      [(0, rowWp)] [] 0 rowWp
      (by norm_num [bestSearch, bestStep, similarity, scoreOne, rowWp,
        (by decide : ¬ ("akismet" = ""))])⟩

/-- Claim C9 counterexample: with an EMPTY candidate catalog, `compare_plugins`
returns early on the guard of lines 87-89 and emits no records at all — in
particular no MISSING record for the reference item — contradicting the
claim's "(including when the candidate catalog is empty)". -/
theorem claim_C9_counterexample :
    compare_plugins scoreZero [] [rowWd] = none := by
  decide

/-- Claim C9 (amended): when BOTH catalogs are nonempty, every reference item
whose best not-yet-consumed score is below `0.80` contributes exactly the
`faltantes` record built from its own fields (a record type with no
candidate-side version at all), and `compare_versions` against an absent
(empty) candidate version yields `DESCONOCIDO` (UNKNOWN); when either catalog
is empty the pass is skipped and nothing is emitted. -/
theorem claim_C9_missing_classification (score : String → String → ℚ)
    (wps wds : List PluginRow) (hwps : ¬ wps = []) (hwds : ¬ wds = []) :
    compare_plugins score wps wds = some (runPass score wps wds)
    ∧ (runPass score wps wds).faltantes
        = (runPass score wps wds).steps.filterMap missingOf
    ∧ (∀ v, compare_versions v "" = "DESCONOCIDO") := by
  refine ⟨?_, (runPass_inv score wps wds).2.2.1, ?_⟩
  · unfold compare_plugins
    rw [if_neg (by simp [hwps, hwds])]
  · intro v
    unfold compare_versions
    rw [if_pos (Or.inr rfl)]

/-- Witness for claim C9 at the constant score 0 on one-element catalogs. -/
theorem claim_C9_witness :
    compare_plugins scoreZero [rowWp] [rowWd] = some (runPass scoreZero [rowWp] [rowWd])
    ∧ compare_versions "4.1" "" = "DESCONOCIDO" :=
  ⟨(claim_C9_missing_classification scoreZero [rowWp] [rowWd]
      (by decide) (by decide)).1,
   (claim_C9_missing_classification scoreZero [rowWp] [rowWd]
      (by decide) (by decide)).2.2 "4.1"⟩

end ComparadorPlugins
